import Mathlib

/-!
Shallow embedding of the stock-dashboard pipeline in `assignment.py`:
symbol validation (`validate_stock_symbol`), the two HTTP fetch
operations (`get_current_price`, `fetch_stock_data`), series
normalization (`process_stock_data`), and the results block that wires
them together and renders the output.

Modelling conventions:
  * Python strings are Lean `String`s; the string helpers (`strip`,
    `upper`, `isalnum`, `replace`) are modelled faithfully for ASCII
    text (Python's versions are Unicode-wide; every theorem that needs
    the Python/model agreement restricts itself to ASCII input).
  * Python floats (`float(...)`, `pd.to_numeric`) are modelled as exact
    rationals produced by a decimal-literal parser; `pd.to_datetime` is
    modelled for the provider's `YYYY-MM-DD` date format, encoding a
    date as the natural number `y*10000 + m*100 + d` (order-isomorphic
    to calendar order for in-range months/days).
  * Network I/O is modelled by passing each fetch the outcome of its
    one HTTP request (`HttpOutcome`): a status code with a decoded JSON
    body, or one of the exception classes the code catches.  Distinct
    Python exception classes can carry the same `str(e)` text, which is
    all the handlers observe, so each outcome carries that text.
-/

/-- Characters treated as whitespace by Python `str.strip()`
(ASCII fragment: space, tab, newline, carriage return, form feed,
vertical tab). -/
def pyIsSpace (c : Char) : Bool :=
  c = ' ' || c = '\t' || c = '\n' || c = '\r' || c = '\x0c' || c = '\x0b'

/-- Python `s.strip()`: remove leading and trailing whitespace. -/
def pyStrip (s : String) : String :=
  ⟨((s.data.dropWhile pyIsSpace).reverse.dropWhile pyIsSpace).reverse⟩

/-- Python `s.upper()`, modelled characterwise with ASCII case mapping
(faithful to Python on ASCII text). -/
def pyUpper (s : String) : String :=
  ⟨s.data.map Char.toUpper⟩

/-- Python `s.isalnum()`: true iff the string is nonempty and every
character is alphanumeric (ASCII fragment of Python's Unicode
predicate, i.e. `[A-Za-z0-9]`). -/
def str_isalnum (s : String) : Bool :=
  !s.data.isEmpty && s.data.all Char.isAlphanum

/-- Python `s.replace(".", "")`: drop every period. -/
def removePeriods (s : String) : String :=
  ⟨s.data.filter (fun c => c != '.')⟩

/-- Numeric value of a digit list (most significant first). -/
def digitsVal (ds : List Char) : Nat :=
  ds.foldl (fun a c => a * 10 + (c.toNat - 48)) 0

/-- Split a character list at the first period, if any. -/
def splitOnDot : List Char → List Char × Option (List Char)
  | [] => ([], none)
  | '.' :: t => ([], some t)
  | c :: t =>
    let p := splitOnDot t
    (c :: p.1, p.2)

/-- Decimal-literal parser modelling Python `float(...)` and
`pd.to_numeric` on the provider's numeric strings: an optional sign,
digits, and an optional single fractional part (`"150.25"`, `"-3."`,
`".5"`, `"7"`); anything else fails.  The value is kept as an exact
rational. -/
def parseDecimal? (s : String) : Option ℚ :=
  let signed : Bool × List Char :=
    match s.data with
    | '-' :: t => (true, t)
    | '+' :: t => (false, t)
    | t => (false, t)
  let sgn : Int → Int := fun n => if signed.1 then -n else n
  let p := splitOnDot signed.2
  match p.2 with
  | none =>
    if p.1 ≠ [] ∧ p.1.all Char.isDigit then
      some (mkRat (sgn (digitsVal p.1)) 1)
    else none
  | some frac =>
    if ('.' ∉ frac) ∧ (p.1 ≠ [] ∨ frac ≠ []) ∧ p.1.all Char.isDigit
        ∧ frac.all Char.isDigit then
      some (mkRat (sgn (digitsVal p.1 * 10 ^ frac.length + digitsVal frac))
        (10 ^ frac.length))
    else none

/-- Date parser modelling `pd.to_datetime` on the provider's
`YYYY-MM-DD` strings; the date is encoded as `y*10000 + m*100 + d`,
which is order-isomorphic to calendar order for the accepted ranges. -/
def parseDate? (s : String) : Option Nat :=
  match s.data with
  | [y1, y2, y3, y4, h1, m1, m2, h2, d1, d2] =>
    if y1.isDigit ∧ y2.isDigit ∧ y3.isDigit ∧ y4.isDigit
        ∧ h1 = '-' ∧ m1.isDigit ∧ m2.isDigit ∧ h2 = '-'
        ∧ d1.isDigit ∧ d2.isDigit then
      let m := digitsVal [m1, m2]
      let d := digitsVal [d1, d2]
      if 1 ≤ m ∧ m ≤ 12 ∧ 1 ≤ d ∧ d ≤ 31 then
        some (digitsVal [y1, y2, y3, y4] * 10000 + m * 100 + d)
      else none
    else none
  | _ => none

/-- `validate_stock_symbol` (assignment.py lines 139-150): empty check,
then character-set check (`symbol.replace(".", "").isalnum()`), then
length check, returning Python's `(ok, message)` pair. -/
def validate_stock_symbol (symbol : String) : Bool × String :=
  if symbol = "" then
    (false, "Please enter a stock symbol")
  else if !str_isalnum (removePeriods symbol) then
    (false, "Stock symbol should only contain letters, numbers, and periods")
  else if symbol.length > 10 then
    (false, "Stock symbol should be 10 characters or less")
  else
    (true, "")

/-- The validation applied to raw user input: the results block strips
and uppercases the text-input value (line 286) before calling
`validate_stock_symbol` (line 304).  This composition realizes the
spec's `validate` contract, whose `EmptyInput` case reads "empty after
trimming". -/
def validate (s : String) : Bool × String :=
  validate_stock_symbol (pyUpper (pyStrip s))

example : validate "AAPL" = (true, "") := by decide
example : validate "BRK.B" = (true, "") := by decide
example : validate "" = (false, "Please enter a stock symbol") := by decide
example : validate "   " = (false, "Please enter a stock symbol") := by decide
example : validate "TOOLONGSYMBOL123" =
    (false, "Stock symbol should be 10 characters or less") := by decide
example : parseDecimal? "150.25" = some (mkRat 15025 100) := by decide
example : mkRat 15025 100 = (150.25 : ℚ) := by norm_num [Rat.mkRat_eq_div]
example : parseDecimal? "abc" = none := by decide
example : parseDate? "2024-01-08" = some 20240108 := by decide
example : parseDate? "2024-13-08" = none := by decide

/-- Outcome of the single HTTP GET a fetch operation performs: a
decoded response (status code plus JSON body), or one of the exception
classes the code catches at lines 182-187.  `requests.exceptions.Timeout`
is a subclass of `RequestException`; each carries its `str(e)` text,
the only thing the handlers inspect (distinct classes may carry equal
text). -/
inductive HttpOutcome (β : Type) : Type where
  | resp (statusCode : Nat) (body : β)
  | timeoutExc (cause : String)
  | requestExc (cause : String)
  | otherExc (cause : String)
deriving DecidableEq

/-- JSON body of the `price` endpoint as accessed by
`get_current_price`: the optional `status`, `message` and `price`
fields. -/
structure PriceBody where
  status : Option String
  message : Option String
  price : Option String
deriving DecidableEq

/-- One raw OHLCV record of the `time_series` response: every field is
a string, exactly as the provider delivers them.  The Python `open`
key is spelled `open'`. -/
structure RawRecord where
  datetime : String
  open' : String
  high : String
  low : String
  close : String
  volume : String
deriving DecidableEq

/-- JSON body of the `time_series` endpoint as accessed by
`fetch_stock_data` and `process_stock_data`: the optional `status` and
`message` fields and the optional `values` list. -/
structure TimeSeriesBody where
  status : Option String
  message : Option String
  values : Option (List RawRecord)
deriving DecidableEq

/-- `get_current_price` (lines 190-212): on HTTP 200 it rejects an
explicit `status == "error"` body, then requires a `price` field and
converts it with `float(...)`; a non-200 status reports the code.  The
single generic `except Exception` handler catches everything raised in
the `try` — timeouts and network errors included — and, like a failed
`float(...)` conversion, reports `"Error fetching current price: "`
followed by `str(e)`.  Returns Python's `(price, error)` pair. -/
def get_current_price (resp : HttpOutcome PriceBody) : Option ℚ × Option String :=
  match resp with
  | .resp statusCode body =>
    if statusCode = 200 then
      if body.status = some "error" then
        (none, some (body.message.getD "Unknown API error"))
      else
        match body.price with
        | some p =>
          match parseDecimal? p with
          | some q => (some q, none)
          | none =>
            (none, some ("Error fetching current price: could not convert string to float: " ++ p))
        | none => (none, some "Price data not available")
    else
      (none, some ("API request failed with status code: " ++ toString statusCode))
  | .timeoutExc cause => (none, some ("Error fetching current price: " ++ cause))
  | .requestExc cause => (none, some ("Error fetching current price: " ++ cause))
  | .otherExc cause => (none, some ("Error fetching current price: " ++ cause))

/-- `fetch_stock_data` (lines 153-187): on HTTP 200 it rejects an
explicit `status == "error"` body, then requires a `values` key; a
non-200 status reports the code.  Unlike `get_current_price` it has
dedicated handlers: `requests.exceptions.Timeout` yields the fixed
timeout message, other `RequestException`s a `"Network error: "`
message, and anything else an `"Unexpected error: "` message.  Returns
Python's `(data, error)` pair. -/
def fetch_stock_data (resp : HttpOutcome TimeSeriesBody) : Option TimeSeriesBody × Option String :=
  match resp with
  | .resp statusCode body =>
    if statusCode = 200 then
      if body.status = some "error" then
        (none, some (body.message.getD "Unknown API error"))
      else
        match body.values with
        | some _ => (some body, none)
        | none => (none, some "No data available for this symbol")
    else
      (none, some ("API request failed with status code: " ++ toString statusCode))
  | .timeoutExc _ => (none, some "Request timed out. Please try again.")
  | .requestExc cause => (none, some ("Network error: " ++ cause))
  | .otherExc cause => (none, some ("Unexpected error: " ++ cause))

/-- One normalized OHLCV row after the type conversions of
`process_stock_data`: the date code from `pd.to_datetime` and the
numeric values from `pd.to_numeric`. -/
structure StockRecord where
  datetime : Nat
  open' : ℚ
  high : ℚ
  low : ℚ
  close : ℚ
  volume : ℚ
deriving DecidableEq

/-- Exception raised inside the `try` of `process_stock_data` and
stringified by its handler into `"Error processing data: " + str(e)`:
either the `KeyError` of a missing key (including the `KeyError` that
`df['datetime']` raises on the column-free frame built from an empty
`values` list), or the parse error `pd.to_datetime`/`pd.to_numeric`
raises for the first unparseable cell of a column, which carries the
column being converted, the row position, and the offending text. -/
inductive ProcessingError : Type where
  | keyError (key : String)
  | malformed (field : String) (position : Nat) (offending : String)
deriving DecidableEq

instance {ε α : Type} [DecidableEq ε] [DecidableEq α] : DecidableEq (Except ε α) := fun x y =>
  match x, y with
  | .error a, .error b =>
    if h : a = b then isTrue (by rw [h]) else isFalse (fun hh => by cases hh; exact h rfl)
  | .ok a, .ok b =>
    if h : a = b then isTrue (by rw [h]) else isFalse (fun hh => by cases hh; exact h rfl)
  | .error _, .ok _ => isFalse (fun hh => by cases hh)
  | .ok _, .error _ => isFalse (fun hh => by cases hh)

/-- Column conversion as `pd.to_datetime`/`pd.to_numeric` perform it:
convert every cell, stopping at the first unparseable one, which is
reported with its position and text. -/
def parseCells {γ : Type} (p : String → Option γ) :
    List String → Except (Nat × String) (List γ)
  | [] => .ok []
  | c :: cs =>
    match p c with
    | none => .error (0, c)
    | some a =>
      match parseCells p cs with
      | .error e => .error (e.1 + 1, e.2)
      | .ok as => .ok (a :: as)

/-- Rebuild rows from the six converted columns (the inverse of the
column view of a record list; all six lists have equal length when it
is used). -/
def zipRecords : List Nat → List ℚ → List ℚ → List ℚ → List ℚ → List ℚ →
    List StockRecord
  | d :: ds, o :: os, h :: hs, l :: ls, c :: cs, v :: vs =>
    ⟨d, o, h, l, c, v⟩ :: zipRecords ds os hs ls cs vs
  | _, _, _, _, _, _ => []

/-- Full conversion of one raw record: all six fields must parse.  Used
to state claims; `process_stock_data` itself works column-wise. -/
def recordParse? (r : RawRecord) : Option StockRecord :=
  match parseDate? r.datetime, parseDecimal? r.open', parseDecimal? r.high,
      parseDecimal? r.low, parseDecimal? r.close, parseDecimal? r.volume with
  | some d, some o, some h, some l, some c, some v => some ⟨d, o, h, l, c, v⟩
  | _, _, _, _, _, _ => none

/-- Parse a whole list elementwise, failing if any element fails. -/
def allParse? {α β : Type} (p : α → Option β) : List α → Option (List β)
  | [] => some []
  | x :: xs =>
    match p x, allParse? p xs with
    | some y, some ys => some (y :: ys)
    | _, _ => none

/-- Ascending-date ordering used by `df.sort_values('datetime')`. -/
def dateLe (a b : StockRecord) : Prop :=
  a.datetime ≤ b.datetime

instance : DecidableRel dateLe := fun a b => Nat.decLe a.datetime b.datetime

instance : IsTotal StockRecord dateLe := ⟨fun a b => Nat.le_total a.datetime b.datetime⟩

instance : IsTrans StockRecord dateLe := ⟨fun _ _ _ => Nat.le_trans⟩

/-- `df.sort_values('datetime')` (line 265): sort ascending by date.
pandas's default sort kind is unspecified on ties; insertion sort
agrees with it on the duplicate-free date lists the claims concern. -/
def sortByDatetime (rs : List StockRecord) : List StockRecord :=
  List.insertionSort dateLe rs

/-- `process_stock_data` (lines 248-270): read `data["values"]`, build
the frame, convert the `datetime` column and then each numeric column
in source order, sort ascending by date.  Any exception is caught and
returned as the error component of Python's `(df, error)` pair; an
empty `values` list yields a column-free frame, so `df['datetime']`
raises `KeyError` there. -/
def process_stock_data (data : TimeSeriesBody) : Except ProcessingError (List StockRecord) :=
  match data.values with
  | none => .error (.keyError "values")
  | some values =>
    if values.isEmpty then .error (.keyError "datetime")
    else
      match parseCells parseDate? (values.map (·.datetime)) with
      | .error e => .error (.malformed "datetime" e.1 e.2)
      | .ok ds =>
      match parseCells parseDecimal? (values.map (·.open')) with
      | .error e => .error (.malformed "open" e.1 e.2)
      | .ok os =>
      match parseCells parseDecimal? (values.map (·.high)) with
      | .error e => .error (.malformed "high" e.1 e.2)
      | .ok hs =>
      match parseCells parseDecimal? (values.map (·.low)) with
      | .error e => .error (.malformed "low" e.1 e.2)
      | .ok ls =>
      match parseCells parseDecimal? (values.map (·.close)) with
      | .error e => .error (.malformed "close" e.1 e.2)
      | .ok cs =>
      match parseCells parseDecimal? (values.map (·.volume)) with
      | .error e => .error (.malformed "volume" e.1 e.2)
      | .ok vs => .ok (sortByDatetime (zipRecords ds os hs ls cs vs))

/-- `df['close'].iloc[-1]` (line 343): close of the last row.  The
frames reaching this point are nonempty, so the `0` default is
unreachable. -/
def latest_close (df : List StockRecord) : ℚ :=
  match df.getLast? with
  | some r => r.close
  | none => 0

/-- Maximum of a list of rationals (`Series.max()` on a nonempty
column; the `0` default is unreachable). -/
def listMax : List ℚ → ℚ
  | [] => 0
  | x :: xs => xs.foldl max x

/-- Minimum of a list of rationals (`Series.min()` on a nonempty
column; the `0` default is unreachable). -/
def listMin : List ℚ → ℚ
  | [] => 0
  | x :: xs => xs.foldl min x

/-- `df['high'].max()` (line 347). -/
def week_high (df : List StockRecord) : ℚ :=
  listMax (df.map (·.high))

/-- `df['low'].min()` (line 351). -/
def week_low (df : List StockRecord) : ℚ :=
  listMin (df.map (·.low))

/-- Python truthiness of an optional float (`None` and `0.0` are
falsy), as tested by `if current_price and not price_error`. -/
def pyTruthyFloat : Option ℚ → Bool
  | none => false
  | some q => decide (q ≠ 0)

/-- Python truthiness of an optional string (`None` and `""` are
falsy). -/
def pyTruthyStr : Option String → Bool
  | none => false
  | some s => decide (s ≠ "")

/-- HTTP requests the pipeline can issue, in issue order. -/
inductive ApiRequest : Type where
  | price (symbol : String)
  | series (symbol : String) (interval : String) (outputsize : Nat)
deriving DecidableEq

/-- Everything the results block (lines 301-389) can put on the page,
plus the list of HTTP requests it issued, in order. -/
structure Rendered where
  requests : List ApiRequest
  emptyWarning : Bool
  validationError : Option String
  fetchError : Option String
  processError : Option ProcessingError
  priceMetric : Option ℚ
  priceWarning : Bool
  keyMetrics : Option (ℚ × ℚ × ℚ)
  chart : Option (List StockRecord)
  table : Option (List StockRecord)
deriving DecidableEq

/-- A page with nothing rendered and no request issued. -/
def Rendered.blank : Rendered :=
  ⟨[], false, none, none, none, none, false, none, none, none⟩

/-- The results block (lines 301-389) on one clicked request: strip and
uppercase the input (line 286); an empty symbol only warns; a failed
validation renders its message and issues no request; otherwise both
fetches are issued (price first), a series-fetch error or processing
error is rendered as an error, and on success the price metric is shown
when `current_price and not price_error` is truthy (else the soft
warning), together with the key metrics (latest close, 7-day high,
7-day low), the chart, and the raw-data table. -/
def run_app (rawInput : String) (priceResp : HttpOutcome PriceBody)
    (seriesResp : HttpOutcome TimeSeriesBody) : Rendered :=
  let stock_symbol := pyUpper (pyStrip rawInput)
  if stock_symbol = "" then
    { Rendered.blank with emptyWarning := true }
  else
    let v := validate_stock_symbol stock_symbol
    if v.1 = false then
      { Rendered.blank with validationError := some v.2 }
    else
      let pr := get_current_price priceResp
      let sr := fetch_stock_data seriesResp
      let reqs := [ApiRequest.price stock_symbol,
                   ApiRequest.series stock_symbol "1day" 7]
      match sr.2 with
      | some emsg =>
        { Rendered.blank with
            requests := reqs,
            fetchError := some ("Error fetching stock data: " ++ emsg) }
      | none =>
        match sr.1 with
        | none => { Rendered.blank with requests := reqs }
        | some body =>
          match process_stock_data body with
          | .error e =>
            { Rendered.blank with requests := reqs, processError := some e }
          | .ok df =>
            let showPrice := pyTruthyFloat pr.1 && !pyTruthyStr pr.2
            { Rendered.blank with
                requests := reqs,
                priceMetric := if showPrice then pr.1 else none,
                priceWarning := !showPrice,
                keyMetrics := some (latest_close df, week_high df, week_low df),
                chart := some df,
                table := some df }

theorem char_toNat_ofNat {n : Nat} (h : n < 0xd800) : (Char.ofNat n).toNat = n := by
  unfold Char.ofNat
  rw [dif_pos (Or.inl h)]
  simp [Char.ofNatAux, Char.toNat, UInt32.toNat, UInt32.ofNat', BitVec.toNat_ofNat]

theorem char_isLower_iff {c : Char} : c.isLower = true ↔ 97 ≤ c.toNat ∧ c.toNat ≤ 122 := by
  simp [Char.isLower, Char.toNat, UInt32.le_def, BitVec.le_def, UInt32.toNat]

theorem char_isAlphanum_iff {c : Char} :
    c.isAlphanum = true ↔
      (65 ≤ c.toNat ∧ c.toNat ≤ 90) ∨ (97 ≤ c.toNat ∧ c.toNat ≤ 122)
        ∨ (48 ≤ c.toNat ∧ c.toNat ≤ 57) := by
  simp [Char.isAlphanum, Char.isAlpha, Char.isUpper, Char.isLower, Char.isDigit,
    Char.toNat, UInt32.le_def, BitVec.le_def, UInt32.toNat, or_assoc]

theorem char_toUpper_of_not_lower {c : Char} (h : c.isLower = false) : c.toUpper = c := by
  unfold Char.toUpper
  rw [if_neg]
  intro hc
  rw [show c.isLower = (decide (97 ≤ c.toNat) && decide (c.toNat ≤ 122)) from by
    simp [Char.isLower, Char.toNat, UInt32.le_def, BitVec.le_def, UInt32.toNat]] at h
  simp at h
  omega

theorem char_toUpper_toNat_of_lower {c : Char} (h : c.isLower = true) :
    c.toUpper.toNat = c.toNat - 32 := by
  rw [char_isLower_iff] at h
  unfold Char.toUpper
  rw [if_pos (by omega)]
  exact char_toNat_ofNat (by omega)

theorem char_ne_of_toNat_ne {a b : Char} (h : a.toNat ≠ b.toNat) : a ≠ b :=
  fun hab => h (by rw [hab])

theorem char_toUpper_isAlphanum (c : Char) : c.toUpper.isAlphanum = c.isAlphanum := by
  cases hl : c.isLower with
  | false => rw [char_toUpper_of_not_lower hl]
  | true =>
    have h1 := char_isLower_iff.mp hl
    have h2 := char_toUpper_toNat_of_lower hl
    have hu : c.toUpper.isAlphanum = true := char_isAlphanum_iff.mpr (by omega)
    have hc : c.isAlphanum = true := char_isAlphanum_iff.mpr (by omega)
    rw [hu, hc]

theorem char_toUpper_eq_dot_iff (c : Char) : c.toUpper = '.' ↔ c = '.' := by
  cases hl : c.isLower with
  | false => rw [char_toUpper_of_not_lower hl]
  | true =>
    have h1 := char_isLower_iff.mp hl
    have h2 := char_toUpper_toNat_of_lower hl
    have hdot : ('.' : Char).toNat = 46 := by decide
    constructor
    · intro h; exact absurd h (char_ne_of_toNat_ne (by omega))
    · intro h; exact absurd h (char_ne_of_toNat_ne (by omega))

theorem char_not_lower_of_not_alnum {c : Char} (h : c.isAlphanum = false) :
    c.isLower = false := by
  cases hl : c.isLower with
  | false => rfl
  | true =>
    have h1 := char_isLower_iff.mp hl
    rw [char_isAlphanum_iff.mpr (by omega)] at h
    cases h

theorem pyUpper_data (s : String) : (pyUpper s).data = s.data.map Char.toUpper := rfl

theorem pyUpper_length (s : String) : (pyUpper s).length = s.length := by
  show (s.data.map Char.toUpper).length = s.data.length
  exact List.length_map s.data Char.toUpper

theorem pyUpper_eq_empty_iff (s : String) : pyUpper s = "" ↔ s = "" := by
  rw [String.ext_iff, String.ext_iff]
  show s.data.map Char.toUpper = [] ↔ s.data = []
  simp

theorem str_isalnum_removePeriods_pyUpper (s : String) :
    str_isalnum (removePeriods (pyUpper s)) = str_isalnum (removePeriods s) := by
  unfold str_isalnum removePeriods pyUpper
  have hpred : ((fun c => c != '.') ∘ Char.toUpper) = (fun c : Char => c != '.') := by
    funext c
    show (Char.toUpper c != '.') = (c != '.')
    by_cases h : c = '.'
    · simp [h, (char_toUpper_eq_dot_iff c).mpr h]
    · simp [bne, h, (char_toUpper_eq_dot_iff c).not.mpr h]
  have hfil : List.filter (fun c => c != '.') (s.data.map Char.toUpper)
      = (List.filter (fun c => c != '.') s.data).map Char.toUpper := by
    rw [List.filter_map, hpred]
  show (!(List.filter (fun c => c != '.') (s.data.map Char.toUpper)).isEmpty
      && (List.filter (fun c => c != '.') (s.data.map Char.toUpper)).all Char.isAlphanum)
    = (!(List.filter (fun c => c != '.') s.data).isEmpty
      && (List.filter (fun c => c != '.') s.data).all Char.isAlphanum)
  rw [hfil]
  congr 1
  · cases List.filter (fun c => c != '.') s.data <;> rfl
  · rw [List.all_map]
    congr 1
    funext c
    exact char_toUpper_isAlphanum c

theorem parseCells_ok_iff {γ : Type} (p : String → Option γ) :
    ∀ (cells : List String) (ys : List γ),
      parseCells p cells = .ok ys ↔ allParse? p cells = some ys := by
  intro cells
  induction cells with
  | nil => intro ys; simp [parseCells, allParse?]
  | cons c cs ih =>
    intro ys
    cases hp : p c with
    | none => simp [parseCells, allParse?, hp]
    | some a =>
      cases hrec : parseCells p cs with
      | error e =>
        have hall : allParse? p cs = none := by
          cases hall : allParse? p cs with
          | none => rfl
          | some zs =>
            have hok := (ih zs).mpr hall
            rw [hok] at hrec
            cases hrec
        simp [parseCells, allParse?, hp, hrec, hall]
      | ok as =>
        have hall : allParse? p cs = some as := (ih as).mp hrec
        simp [parseCells, allParse?, hp, hrec, hall]

theorem parseCells_error {γ : Type} (p : String → Option γ) :
    ∀ (cells : List String) (i : Nat) (b : String),
      parseCells p cells = .error (i, b) → cells[i]? = some b ∧ p b = none := by
  intro cells
  induction cells with
  | nil => intro i b h; simp [parseCells] at h
  | cons c cs ih =>
    intro i b h
    cases hp : p c with
    | none =>
      simp [parseCells, hp] at h
      obtain ⟨hi, hb⟩ := h
      subst hi; subst hb
      exact ⟨by simp, hp⟩
    | some a =>
      cases hrec : parseCells p cs with
      | error e =>
        simp [parseCells, hp, hrec] at h
        obtain ⟨hi, hb⟩ := h
        obtain ⟨h1, h2⟩ := ih e.1 e.2 hrec
        subst hi; subst hb
        exact ⟨by simpa using h1, h2⟩
      | ok as => simp [parseCells, hp, hrec] at h

theorem allParse?_mem {α β : Type} (p : α → Option β) :
    ∀ (xs : List α) (ys : List β), allParse? p xs = some ys →
      ∀ x ∈ xs, ∃ y, p x = some y := by
  intro xs
  induction xs with
  | nil => intro ys _ x hx; cases hx
  | cons z zs ih =>
    intro ys h x hx
    cases hp : p z with
    | none => simp [allParse?, hp] at h
    | some y0 =>
      cases hall : allParse? p zs with
      | none => simp [allParse?, hp, hall] at h
      | some ys0 =>
        rcases List.mem_cons.mp hx with rfl | hx2
        · exact ⟨y0, hp⟩
        · exact ih ys0 hall x hx2

theorem recordParse?_eq_some {r : RawRecord} {s : StockRecord} :
    recordParse? r = some s ↔
      parseDate? r.datetime = some s.datetime ∧
      parseDecimal? r.open' = some s.open' ∧
      parseDecimal? r.high = some s.high ∧
      parseDecimal? r.low = some s.low ∧
      parseDecimal? r.close = some s.close ∧
      parseDecimal? r.volume = some s.volume := by
  constructor
  · intro h
    unfold recordParse? at h
    split at h
    · next d o hh l c v hd ho hhi hl hc hv =>
      rw [Option.some.injEq] at h
      subst h
      exact ⟨hd, ho, hhi, hl, hc, hv⟩
    · cases h
  · intro ⟨hd, ho, hhi, hl, hc, hv⟩
    unfold recordParse?
    rw [hd, ho, hhi, hl, hc, hv]

theorem allParse?_proj {γ : Type} (p : String → Option γ) (fr : RawRecord → String)
    (fs : StockRecord → γ)
    (hpf : ∀ r s, recordParse? r = some s → p (fr r) = some (fs s)) :
    ∀ (vs : List RawRecord) (rs : List StockRecord),
      allParse? recordParse? vs = some rs →
        allParse? p (vs.map fr) = some (rs.map fs) := by
  intro vs
  induction vs with
  | nil =>
    intro rs h
    simp [allParse?] at h
    subst h
    simp [allParse?]
  | cons v vs ih =>
    intro rs h
    cases hv : recordParse? v with
    | none => simp [allParse?, hv] at h
    | some s0 =>
      cases hall : allParse? recordParse? vs with
      | none => simp [allParse?, hv, hall] at h
      | some rs0 =>
        simp only [allParse?, hv, hall] at h
        rw [Option.some.injEq] at h
        subst h
        simp [allParse?, hpf v s0 hv, ih rs0 hall]

theorem zipRecords_proj : ∀ rs : List StockRecord,
    zipRecords (rs.map (·.datetime)) (rs.map (·.open')) (rs.map (·.high))
      (rs.map (·.low)) (rs.map (·.close)) (rs.map (·.volume)) = rs := by
  intro rs
  induction rs with
  | nil => rfl
  | cons r rs ih => simp [zipRecords, ih]

theorem recordParse?_datetime {r : RawRecord} {s : StockRecord}
    (h : recordParse? r = some s) : parseDate? r.datetime = some s.datetime :=
  (recordParse?_eq_some.mp h).1

theorem process_ok_of_allParse (data : TimeSeriesBody) (vs : List RawRecord)
    (rs : List StockRecord) (hv : data.values = some vs) (hne : vs ≠ [])
    (hp : allParse? recordParse? vs = some rs) :
    process_stock_data data = .ok (sortByDatetime rs) := by
  have h1 := (parseCells_ok_iff parseDate? (vs.map (·.datetime)) (rs.map (·.datetime))).mpr
    (allParse?_proj parseDate? (·.datetime) (·.datetime)
      (fun r s h => (recordParse?_eq_some.mp h).1) vs rs hp)
  have h2 := (parseCells_ok_iff parseDecimal? (vs.map (·.open')) (rs.map (·.open'))).mpr
    (allParse?_proj parseDecimal? (·.open') (·.open')
      (fun r s h => (recordParse?_eq_some.mp h).2.1) vs rs hp)
  have h3 := (parseCells_ok_iff parseDecimal? (vs.map (·.high)) (rs.map (·.high))).mpr
    (allParse?_proj parseDecimal? (·.high) (·.high)
      (fun r s h => (recordParse?_eq_some.mp h).2.2.1) vs rs hp)
  have h4 := (parseCells_ok_iff parseDecimal? (vs.map (·.low)) (rs.map (·.low))).mpr
    (allParse?_proj parseDecimal? (·.low) (·.low)
      (fun r s h => (recordParse?_eq_some.mp h).2.2.2.1) vs rs hp)
  have h5 := (parseCells_ok_iff parseDecimal? (vs.map (·.close)) (rs.map (·.close))).mpr
    (allParse?_proj parseDecimal? (·.close) (·.close)
      (fun r s h => (recordParse?_eq_some.mp h).2.2.2.2.1) vs rs hp)
  have h6 := (parseCells_ok_iff parseDecimal? (vs.map (·.volume)) (rs.map (·.volume))).mpr
    (allParse?_proj parseDecimal? (·.volume) (·.volume)
      (fun r s h => (recordParse?_eq_some.mp h).2.2.2.2.2) vs rs hp)
  have hie : vs.isEmpty = false := by
    cases vs with
    | nil => exact absurd rfl hne
    | cons a l => rfl
  simp only [process_stock_data, hv, hie, Bool.false_eq_true, if_false,
    h1, h2, h3, h4, h5, h6, zipRecords_proj]

/-- Raw field access by pandas column name. -/
def rawFieldGet (r : RawRecord) (f : String) : Option String :=
  if f = "datetime" then some r.datetime
  else if f = "open" then some r.open'
  else if f = "high" then some r.high
  else if f = "low" then some r.low
  else if f = "close" then some r.close
  else if f = "volume" then some r.volume
  else none

/-- Whether the converter used for a given column accepts a cell. -/
def fieldParses (f : String) (s : String) : Bool :=
  if f = "datetime" then (parseDate? s).isSome else (parseDecimal? s).isSome

theorem cell_of_parseCells_error {γ : Type} (p : String → Option γ)
    (fr : RawRecord → String) (vs : List RawRecord) (e : Nat × String)
    (h : parseCells p (vs.map fr) = .error e) :
    ∃ r, vs[e.1]? = some r ∧ fr r = e.2 ∧ p e.2 = none := by
  obtain ⟨hcell, hpn⟩ := parseCells_error p (vs.map fr) e.1 e.2 h
  rw [List.getElem?_map] at hcell
  cases hve : vs[e.1]? with
  | none => rw [hve] at hcell; cases hcell
  | some r =>
    rw [hve] at hcell
    simp only [Option.map_some'] at hcell
    rw [Option.some.injEq] at hcell
    exact ⟨r, rfl, hcell, hpn⟩

theorem process_malformed_of_bad (data : TimeSeriesBody) (vs : List RawRecord)
    (hv : data.values = some vs) (hbad : ∃ r ∈ vs, recordParse? r = none) :
    ∃ f i bad r, process_stock_data data = .error (.malformed f i bad)
      ∧ vs[i]? = some r ∧ rawFieldGet r f = some bad
      ∧ fieldParses f bad = false := by
  obtain ⟨r0, hr0, hnone⟩ := hbad
  have hie : vs.isEmpty = false := by
    cases vs with
    | nil => cases hr0
    | cons a l => rfl
  cases h1 : parseCells parseDate? (vs.map (·.datetime)) with
  | error e =>
    obtain ⟨r, hve, hfr, hpn⟩ := cell_of_parseCells_error parseDate? (·.datetime) vs e h1
    refine ⟨"datetime", e.1, e.2, r, ?_, hve, ?_, ?_⟩
    · simp [process_stock_data, hv, hie, h1]
    · simp [rawFieldGet, hfr]
    · simp [fieldParses, hpn]
  | ok ds =>
  cases h2 : parseCells parseDecimal? (vs.map (·.open')) with
  | error e =>
    obtain ⟨r, hve, hfr, hpn⟩ := cell_of_parseCells_error parseDecimal? (·.open') vs e h2
    refine ⟨"open", e.1, e.2, r, ?_, hve, ?_, ?_⟩
    · simp [process_stock_data, hv, hie, h1, h2]
    · simp [rawFieldGet, hfr]
    · simp [fieldParses, hpn]
  | ok os =>
  cases h3 : parseCells parseDecimal? (vs.map (·.high)) with
  | error e =>
    obtain ⟨r, hve, hfr, hpn⟩ := cell_of_parseCells_error parseDecimal? (·.high) vs e h3
    refine ⟨"high", e.1, e.2, r, ?_, hve, ?_, ?_⟩
    · simp [process_stock_data, hv, hie, h1, h2, h3]
    · simp [rawFieldGet, hfr]
    · simp [fieldParses, hpn]
  | ok hs =>
  cases h4 : parseCells parseDecimal? (vs.map (·.low)) with
  | error e =>
    obtain ⟨r, hve, hfr, hpn⟩ := cell_of_parseCells_error parseDecimal? (·.low) vs e h4
    refine ⟨"low", e.1, e.2, r, ?_, hve, ?_, ?_⟩
    · simp [process_stock_data, hv, hie, h1, h2, h3, h4]
    · simp [rawFieldGet, hfr]
    · simp [fieldParses, hpn]
  | ok ls =>
  cases h5 : parseCells parseDecimal? (vs.map (·.close)) with
  | error e =>
    obtain ⟨r, hve, hfr, hpn⟩ := cell_of_parseCells_error parseDecimal? (·.close) vs e h5
    refine ⟨"close", e.1, e.2, r, ?_, hve, ?_, ?_⟩
    · simp [process_stock_data, hv, hie, h1, h2, h3, h4, h5]
    · simp [rawFieldGet, hfr]
    · simp [fieldParses, hpn]
  | ok cs =>
  cases h6 : parseCells parseDecimal? (vs.map (·.volume)) with
  | error e =>
    obtain ⟨r, hve, hfr, hpn⟩ := cell_of_parseCells_error parseDecimal? (·.volume) vs e h6
    refine ⟨"volume", e.1, e.2, r, ?_, hve, ?_, ?_⟩
    · simp [process_stock_data, hv, hie, h1, h2, h3, h4, h5, h6]
    · simp [rawFieldGet, hfr]
    · simp [fieldParses, hpn]
  | ok vols =>
    exfalso
    obtain ⟨d, hd⟩ := allParse?_mem parseDate? (vs.map (·.datetime)) ds
      ((parseCells_ok_iff _ _ _).mp h1) _ (List.mem_map_of_mem (·.datetime) hr0)
    obtain ⟨o, ho⟩ := allParse?_mem parseDecimal? (vs.map (·.open')) os
      ((parseCells_ok_iff _ _ _).mp h2) _ (List.mem_map_of_mem (·.open') hr0)
    obtain ⟨hi0, hhi⟩ := allParse?_mem parseDecimal? (vs.map (·.high)) hs
      ((parseCells_ok_iff _ _ _).mp h3) _ (List.mem_map_of_mem (·.high) hr0)
    obtain ⟨l, hl⟩ := allParse?_mem parseDecimal? (vs.map (·.low)) ls
      ((parseCells_ok_iff _ _ _).mp h4) _ (List.mem_map_of_mem (·.low) hr0)
    obtain ⟨c, hc⟩ := allParse?_mem parseDecimal? (vs.map (·.close)) cs
      ((parseCells_ok_iff _ _ _).mp h5) _ (List.mem_map_of_mem (·.close) hr0)
    obtain ⟨v, hvv⟩ := allParse?_mem parseDecimal? (vs.map (·.volume)) vols
      ((parseCells_ok_iff _ _ _).mp h6) _ (List.mem_map_of_mem (·.volume) hr0)
    have : recordParse? r0 = some ⟨d, o, hi0, l, c, v⟩ :=
      recordParse?_eq_some.mpr ⟨hd, ho, hhi, hl, hc, hvv⟩
    rw [hnone] at this
    cases this

theorem sortByDatetime_perm (rs : List StockRecord) : List.Perm (sortByDatetime rs) rs :=
  List.perm_insertionSort dateLe rs

theorem sortByDatetime_sorted (rs : List StockRecord) :
    List.Sorted dateLe (sortByDatetime rs) :=
  List.sorted_insertionSort dateLe rs

theorem sortByDatetime_length (rs : List StockRecord) :
    (sortByDatetime rs).length = rs.length :=
  (sortByDatetime_perm rs).length_eq

theorem sorted_le_getLast? :
    ∀ (l : List StockRecord), List.Sorted dateLe l →
      ∀ z, l.getLast? = some z → ∀ r ∈ l, r.datetime ≤ z.datetime := by
  intro l
  induction l with
  | nil => intro _ z hz; cases hz
  | cons a t ih =>
    intro hs z hz r hr
    cases t with
    | nil =>
      simp only [List.getLast?_singleton, Option.some.injEq] at hz
      subst hz
      rcases List.mem_singleton.mp hr with rfl
      exact Nat.le_refl _
    | cons b u =>
      have hz' : (b :: u).getLast? = some z := by
        rw [← hz]
        rfl
      have hrel := List.rel_of_sorted_cons hs
      have hst : List.Sorted dateLe (b :: u) := List.Sorted.of_cons hs
      rcases List.mem_cons.mp hr with rfl | hr2
      · have hzmem : z ∈ b :: u := List.mem_of_getLast?_eq_some hz'
        exact hrel z hzmem
      · exact ih hst z hz' r hr2

theorem le_foldl_max_init (xs : List ℚ) : ∀ x : ℚ, x ≤ xs.foldl max x := by
  induction xs with
  | nil => intro x; exact le_refl x
  | cons c cs ih => intro x; exact le_trans (le_max_left x c) (ih (max x c))

theorem le_foldl_max (xs : List ℚ) : ∀ x y : ℚ, y ∈ x :: xs → y ≤ xs.foldl max x := by
  induction xs with
  | nil =>
    intro x y h
    rcases List.mem_singleton.mp h with rfl
    exact le_refl y
  | cons c cs ih =>
    intro x y h
    show y ≤ cs.foldl max (max x c)
    rcases List.mem_cons.mp h with rfl | h2
    · exact le_trans (le_max_left y c) (le_foldl_max_init cs (max y c))
    · rcases List.mem_cons.mp h2 with rfl | h3
      · exact le_trans (le_max_right x y) (le_foldl_max_init cs (max x y))
      · exact ih (max x c) y (List.mem_cons_of_mem _ h3)

theorem foldl_max_mem (xs : List ℚ) : ∀ x : ℚ, xs.foldl max x ∈ x :: xs := by
  induction xs with
  | nil => intro x; exact List.mem_singleton.mpr rfl
  | cons c cs ih =>
    intro x
    show cs.foldl max (max x c) ∈ x :: c :: cs
    have h := ih (max x c)
    rcases List.mem_cons.mp h with he | hm
    · rcases max_choice x c with hx | hc
      · rw [he, hx]; exact List.mem_cons_self _ _
      · rw [he, hc]; exact List.mem_cons_of_mem _ (List.mem_cons_self _ _)
    · exact List.mem_cons_of_mem _ (List.mem_cons_of_mem _ hm)

theorem foldl_min_init_le (xs : List ℚ) : ∀ x : ℚ, xs.foldl min x ≤ x := by
  induction xs with
  | nil => intro x; exact le_refl x
  | cons c cs ih => intro x; exact le_trans (ih (min x c)) (min_le_left x c)

theorem foldl_min_le (xs : List ℚ) : ∀ x y : ℚ, y ∈ x :: xs → xs.foldl min x ≤ y := by
  induction xs with
  | nil =>
    intro x y h
    rcases List.mem_singleton.mp h with rfl
    exact le_refl y
  | cons c cs ih =>
    intro x y h
    show cs.foldl min (min x c) ≤ y
    rcases List.mem_cons.mp h with rfl | h2
    · exact le_trans (foldl_min_init_le cs (min y c)) (min_le_left y c)
    · rcases List.mem_cons.mp h2 with rfl | h3
      · exact le_trans (foldl_min_init_le cs (min x y)) (min_le_right x y)
      · exact ih (min x c) y (List.mem_cons_of_mem _ h3)

theorem foldl_min_mem (xs : List ℚ) : ∀ x : ℚ, xs.foldl min x ∈ x :: xs := by
  induction xs with
  | nil => intro x; exact List.mem_singleton.mpr rfl
  | cons c cs ih =>
    intro x
    show cs.foldl min (min x c) ∈ x :: c :: cs
    have h := ih (min x c)
    rcases List.mem_cons.mp h with he | hm
    · rcases min_choice x c with hx | hc
      · rw [he, hx]; exact List.mem_cons_self _ _
      · rw [he, hc]; exact List.mem_cons_of_mem _ (List.mem_cons_self _ _)
    · exact List.mem_cons_of_mem _ (List.mem_cons_of_mem _ hm)

theorem listMax_mem (l : List ℚ) (h : l ≠ []) : listMax l ∈ l := by
  cases l with
  | nil => exact absurd rfl h
  | cons x xs => exact foldl_max_mem xs x

theorem le_listMax (l : List ℚ) (y : ℚ) (h : y ∈ l) : y ≤ listMax l := by
  cases l with
  | nil => cases h
  | cons x xs => exact le_foldl_max xs x y h

theorem listMin_mem (l : List ℚ) (h : l ≠ []) : listMin l ∈ l := by
  cases l with
  | nil => exact absurd rfl h
  | cons x xs => exact foldl_min_mem xs x

theorem listMin_le (l : List ℚ) (y : ℚ) (h : y ∈ l) : listMin l ≤ y := by
  cases l with
  | nil => cases h
  | cons x xs => exact foldl_min_le xs x y h

theorem string_ne_of_head {a b : String} (h : a.data.head? ≠ b.data.head?) : a ≠ b :=
  fun hab => h (by rw [hab])

theorem append_head? (a b : String) (c : Char) (t : List Char) (ha : a.data = c :: t) :
    (a ++ b).data.head? = some c := by
  rw [String.data_append, ha]
  rfl

theorem run_app_success (raw : String) (p : HttpOutcome PriceBody)
    (srsp : HttpOutcome TimeSeriesBody) (body : TimeSeriesBody)
    (df : List StockRecord) (hv : validate raw = (true, ""))
    (hs : fetch_stock_data srsp = (some body, none))
    (hproc : process_stock_data body = .ok df) :
    run_app raw p srsp =
      { Rendered.blank with
          requests := [ApiRequest.price (pyUpper (pyStrip raw)),
                       ApiRequest.series (pyUpper (pyStrip raw)) "1day" 7],
          priceMetric := if pyTruthyFloat (get_current_price p).1
              && !pyTruthyStr (get_current_price p).2
            then (get_current_price p).1 else none,
          priceWarning := !(pyTruthyFloat (get_current_price p).1
              && !pyTruthyStr (get_current_price p).2),
          keyMetrics := some (latest_close df, week_high df, week_low df),
          chart := some df,
          table := some df } := by
  have hv' : validate_stock_symbol (pyUpper (pyStrip raw)) = (true, "") := hv
  have hsym : ¬(pyUpper (pyStrip raw) = "") := by
    intro h0
    rw [h0] at hv'
    exact absurd hv' (by decide)
  simp [run_app, hv', hs, hproc, hsym]

theorem run_app_requests_nil (raw : String) (p : HttpOutcome PriceBody)
    (srsp : HttpOutcome TimeSeriesBody) (h : (validate raw).1 = false) :
    (run_app raw p srsp).requests = [] := by
  unfold validate at h
  unfold run_app
  by_cases h0 : pyUpper (pyStrip raw) = ""
  · simp [h0, Rendered.blank]
  · simp [h0, h, Rendered.blank]

theorem allParse?_length {α β : Type} (p : α → Option β) :
    ∀ (xs : List α) (ys : List β), allParse? p xs = some ys → ys.length = xs.length := by
  intro xs
  induction xs with
  | nil =>
    intro ys h
    simp [allParse?] at h
    subst h
    rfl
  | cons z zs ih =>
    intro ys h
    cases hp : p z with
    | none => simp [allParse?, hp] at h
    | some y0 =>
      cases hall : allParse? p zs with
      | none => simp [allParse?, hp, hall] at h
      | some ys0 =>
        simp only [allParse?, hp, hall] at h
        rw [Option.some.injEq] at h
        subst h
        simp [ih ys0 hall]

/-- C8: `validate` applied to the empty string fails with the EmptyInput
error ("Please enter a stock symbol"), and applied to the whitespace-only
string `"   "`, which the pipeline trims to the empty string before the
checks, it fails with the same EmptyInput error. -/
theorem claim_C8 :
    validate "" = (false, "Please enter a stock symbol") ∧
    validate "   " = (false, "Please enter a stock symbol") :=
  ⟨by decide, by decide⟩

/-- C9: whenever validation of the entered symbol fails, the results
block issues no HTTP request at all — neither the current-price fetch
nor the time-series fetch appears in the request log. -/
theorem claim_C9 (raw : String) (p : HttpOutcome PriceBody)
    (srsp : HttpOutcome TimeSeriesBody) (h : (validate raw).1 = false) :
    (run_app raw p srsp).requests = [] :=
  run_app_requests_nil raw p srsp h

theorem claim_C9_witness :
    (validate "TOOLONGSYMBOL123").1 = false ∧
    (run_app "TOOLONGSYMBOL123" (.timeoutExc "t") (.timeoutExc "t")).requests = [] :=
  ⟨by decide,
   claim_C9 "TOOLONGSYMBOL123" (.timeoutExc "t") (.timeoutExc "t") (by decide)⟩

/-- C10: when `get_current_price` succeeds with the price exactly 0.0
(no error), the presenter still shows the "current price not available"
warning and no price metric, because `if current_price and not
price_error` tests Python truthiness of the float and `0.0` is falsy. -/
theorem claim_C10 (raw : String) (p : HttpOutcome PriceBody)
    (srsp : HttpOutcome TimeSeriesBody) (body : TimeSeriesBody)
    (df : List StockRecord) (hv : validate raw = (true, ""))
    (hp : get_current_price p = (some 0, none))
    (hs : fetch_stock_data srsp = (some body, none))
    (hproc : process_stock_data body = .ok df) :
    (run_app raw p srsp).priceWarning = true ∧
    (run_app raw p srsp).priceMetric = none := by
  rw [run_app_success raw p srsp body df hv hs hproc]
  simp [hp, pyTruthyFloat, pyTruthyStr]

theorem claim_C10_witness :
    validate "AAPL" = (true, "") ∧
    get_current_price (.resp 200 ⟨none, none, some "0.0"⟩) = (some 0, none) ∧
    fetch_stock_data
        (.resp 200 ⟨none, none, some [⟨"2024-01-08", "1", "3", "1", "2", "10"⟩]⟩)
      = (some ⟨none, none, some [⟨"2024-01-08", "1", "3", "1", "2", "10"⟩]⟩, none) ∧
    process_stock_data ⟨none, none, some [⟨"2024-01-08", "1", "3", "1", "2", "10"⟩]⟩
      = .ok [⟨20240108, 1, 3, 1, 2, 10⟩] ∧
    (run_app "AAPL" (.resp 200 ⟨none, none, some "0.0"⟩)
        (.resp 200 ⟨none, none, some [⟨"2024-01-08", "1", "3", "1", "2", "10"⟩]⟩)).priceWarning
      = true ∧
    (run_app "AAPL" (.resp 200 ⟨none, none, some "0.0"⟩)
        (.resp 200 ⟨none, none, some [⟨"2024-01-08", "1", "3", "1", "2", "10"⟩]⟩)).priceMetric
      = none :=
  ⟨by decide, by decide, by decide, by decide,
   (claim_C10 "AAPL" (.resp 200 ⟨none, none, some "0.0"⟩)
      (.resp 200 ⟨none, none, some [⟨"2024-01-08", "1", "3", "1", "2", "10"⟩]⟩)
      ⟨none, none, some [⟨"2024-01-08", "1", "3", "1", "2", "10"⟩]⟩
      [⟨20240108, 1, 3, 1, 2, 10⟩]
      (by decide) (by decide) (by decide) (by decide)).1,
   (claim_C10 "AAPL" (.resp 200 ⟨none, none, some "0.0"⟩)
      (.resp 200 ⟨none, none, some [⟨"2024-01-08", "1", "3", "1", "2", "10"⟩]⟩)
      ⟨none, none, some [⟨"2024-01-08", "1", "3", "1", "2", "10"⟩]⟩
      [⟨20240108, 1, 3, 1, 2, 10⟩]
      (by decide) (by decide) (by decide) (by decide)).2⟩

/-- C2: whenever the current-price fetch fails (its price component is
`None`, as on a provider error-status body) but the series fetch and
normalization succeed, the flow does not abort: the soft "current price
not available" warning is shown instead of a price metric, and the key
metrics, chart and raw-data table are still rendered, with no fetch or
processing error. -/
theorem claim_C2 (raw : String) (p : HttpOutcome PriceBody)
    (srsp : HttpOutcome TimeSeriesBody) (body : TimeSeriesBody)
    (df : List StockRecord) (hv : validate raw = (true, ""))
    (hperr : (get_current_price p).1 = none)
    (hs : fetch_stock_data srsp = (some body, none))
    (hproc : process_stock_data body = .ok df) :
    (run_app raw p srsp).priceWarning = true ∧
    (run_app raw p srsp).priceMetric = none ∧
    (run_app raw p srsp).keyMetrics
      = some (latest_close df, week_high df, week_low df) ∧
    (run_app raw p srsp).chart = some df ∧
    (run_app raw p srsp).table = some df ∧
    (run_app raw p srsp).fetchError = none ∧
    (run_app raw p srsp).processError = none := by
  rw [run_app_success raw p srsp body df hv hs hproc]
  simp [hperr, pyTruthyFloat, Rendered.blank]

theorem claim_C2_witness :
    validate "AAPL" = (true, "") ∧
    (get_current_price
        (.resp 200 ⟨some "error", some "rate limit exceeded", none⟩)).1 = none ∧
    fetch_stock_data
        (.resp 200 ⟨none, none, some [⟨"2024-01-09", "1", "3", "1", "2", "10"⟩,
                                      ⟨"2024-01-08", "2", "5", "2", "4", "20"⟩]⟩)
      = (some ⟨none, none, some [⟨"2024-01-09", "1", "3", "1", "2", "10"⟩,
                                 ⟨"2024-01-08", "2", "5", "2", "4", "20"⟩]⟩, none) ∧
    process_stock_data ⟨none, none, some [⟨"2024-01-09", "1", "3", "1", "2", "10"⟩,
                                          ⟨"2024-01-08", "2", "5", "2", "4", "20"⟩]⟩
      = .ok [⟨20240108, 2, 5, 2, 4, 20⟩, ⟨20240109, 1, 3, 1, 2, 10⟩] ∧
    (run_app "AAPL" (.resp 200 ⟨some "error", some "rate limit exceeded", none⟩)
        (.resp 200 ⟨none, none, some [⟨"2024-01-09", "1", "3", "1", "2", "10"⟩,
                                      ⟨"2024-01-08", "2", "5", "2", "4", "20"⟩]⟩)).priceWarning
      = true ∧
    (run_app "AAPL" (.resp 200 ⟨some "error", some "rate limit exceeded", none⟩)
        (.resp 200 ⟨none, none, some [⟨"2024-01-09", "1", "3", "1", "2", "10"⟩,
                                      ⟨"2024-01-08", "2", "5", "2", "4", "20"⟩]⟩)).chart
      = some [⟨20240108, 2, 5, 2, 4, 20⟩, ⟨20240109, 1, 3, 1, 2, 10⟩] :=
  ⟨by decide, by decide, by decide, by decide,
   (claim_C2 "AAPL" (.resp 200 ⟨some "error", some "rate limit exceeded", none⟩)
      (.resp 200 ⟨none, none, some [⟨"2024-01-09", "1", "3", "1", "2", "10"⟩,
                                    ⟨"2024-01-08", "2", "5", "2", "4", "20"⟩]⟩)
      ⟨none, none, some [⟨"2024-01-09", "1", "3", "1", "2", "10"⟩,
                         ⟨"2024-01-08", "2", "5", "2", "4", "20"⟩]⟩
      [⟨20240108, 2, 5, 2, 4, 20⟩, ⟨20240109, 1, 3, 1, 2, 10⟩]
      (by decide) (by decide) (by decide) (by decide)).1,
   ((claim_C2 "AAPL" (.resp 200 ⟨some "error", some "rate limit exceeded", none⟩)
      (.resp 200 ⟨none, none, some [⟨"2024-01-09", "1", "3", "1", "2", "10"⟩,
                                    ⟨"2024-01-08", "2", "5", "2", "4", "20"⟩]⟩)
      ⟨none, none, some [⟨"2024-01-09", "1", "3", "1", "2", "10"⟩,
                         ⟨"2024-01-08", "2", "5", "2", "4", "20"⟩]⟩
      [⟨20240108, 2, 5, 2, 4, 20⟩, ⟨20240109, 1, 3, 1, 2, 10⟩]
      (by decide) (by decide) (by decide) (by decide)).2).2.2.1⟩

/-- C4 counterexample: `"AAPL "` contains the space character, which is
outside `[A-Za-z0-9.]`, yet `validate` accepts it outright, because the
pipeline trims the input before the character-set check ever sees it. -/
theorem claim_C4_counterexample :
    (' ' ∈ "AAPL ".data ∧ Char.isAlphanum ' ' = false ∧ ' ' ≠ '.') ∧
    validate "AAPL " = (true, "") :=
  ⟨⟨by decide, by decide, by decide⟩, by decide⟩

/-- C4 (amended): for every ASCII symbol S that still contains, after
trimming, at least one character outside `[A-Za-z0-9.]`, `validate S`
fails with the InvalidCharacters error.  (The ASCII bound marks the
domain on which the model of Python's Unicode `isalnum` is faithful.) -/
theorem claim_C4 (S : String) (_hascii : ∀ c ∈ S.data, c.toNat ≤ 127)
    (hbad : ∃ c ∈ (pyStrip S).data, c.isAlphanum = false ∧ c ≠ '.') :
    validate S
      = (false, "Stock symbol should only contain letters, numbers, and periods") := by
  obtain ⟨c, hc, hal, hdot⟩ := hbad
  have hl : c.isLower = false := char_not_lower_of_not_alnum hal
  have hcu : Char.toUpper c = c := char_toUpper_of_not_lower hl
  have hmem : c ∈ (pyUpper (pyStrip S)).data := by
    rw [pyUpper_data]
    have hm := List.mem_map_of_mem Char.toUpper hc
    rwa [hcu] at hm
  have hne : pyUpper (pyStrip S) ≠ "" := by
    intro h0
    rw [String.ext_iff] at h0
    rw [h0] at hmem
    cases hmem
  have hbadfil : str_isalnum (removePeriods (pyUpper (pyStrip S))) = false := by
    unfold str_isalnum removePeriods
    have hcf : c ∈ (pyUpper (pyStrip S)).data.filter (fun x => x != '.') :=
      List.mem_filter.mpr ⟨hmem, by simp [hdot]⟩
    have hall : ((pyUpper (pyStrip S)).data.filter (fun x => x != '.')).all
        Char.isAlphanum = false := by
      rw [List.all_eq_false]
      exact ⟨c, hcf, by simp [hal]⟩
    simp [hall]
  unfold validate validate_stock_symbol
  rw [if_neg hne, hbadfil]
  simp

theorem claim_C4_witness :
    (∀ c ∈ "A B".data, c.toNat ≤ 127) ∧
    (∃ c ∈ (pyStrip "A B").data, c.isAlphanum = false ∧ c ≠ '.') ∧
    validate "A B"
      = (false, "Stock symbol should only contain letters, numbers, and periods") :=
  ⟨by decide, by decide, claim_C4 "A B" (by decide) (by decide)⟩

/-- C5 counterexample: `"!!!!!!!!!!!"` has length 11 > 10, but validate
reports InvalidCharacters, not TooLong, because the character-set check
runs before the length check. -/
theorem claim_C5_counterexample :
    ("!!!!!!!!!!!".length > 10) ∧
    validate "!!!!!!!!!!!"
      = (false, "Stock symbol should only contain letters, numbers, and periods") ∧
    validate "!!!!!!!!!!!"
      ≠ (false, "Stock symbol should be 10 characters or less") :=
  ⟨by decide, by decide, by decide⟩

/-- C5 (amended): for every symbol S whose trimmed form has length
greater than 10 and passes the character-set check (after removing
periods, the remainder is nonempty and alphanumeric), `validate S`
fails with the TooLong error. -/
theorem claim_C5 (S : String) (hlen : (pyStrip S).length > 10)
    (hchars : str_isalnum (removePeriods (pyStrip S)) = true) :
    validate S = (false, "Stock symbol should be 10 characters or less") := by
  have hch2 : str_isalnum (removePeriods (pyUpper (pyStrip S))) = true := by
    rw [str_isalnum_removePeriods_pyUpper]
    exact hchars
  have hlen2 : (pyUpper (pyStrip S)).length > 10 := by
    rw [pyUpper_length]
    exact hlen
  have hne : pyUpper (pyStrip S) ≠ "" := by
    intro h0
    rw [h0] at hlen2
    exact absurd hlen2 (by decide)
  unfold validate validate_stock_symbol
  rw [if_neg hne, hch2]
  simp [hlen2]

theorem claim_C5_witness :
    ((pyStrip "ABCDEFGHIJK").length > 10) ∧
    str_isalnum (removePeriods (pyStrip "ABCDEFGHIJK")) = true ∧
    validate "ABCDEFGHIJK" = (false, "Stock symbol should be 10 characters or less") :=
  ⟨by decide, by decide, claim_C5 "ABCDEFGHIJK" (by decide) (by decide)⟩

theorem snd_pair_ne {α β : Type} {a c : α} {b d : β} (h : b ≠ d) : (a, b) ≠ (c, d) :=
  fun he => h (congrArg Prod.snd he)

/-- C6 counterexample: in `get_current_price` a timed-out request yields
exactly the same result as a generic network failure carrying the same
exception text — the single generic handler does not classify timeouts
distinctly. -/
theorem claim_C6_counterexample :
    get_current_price (.timeoutExc "connection timed out")
      = (none, some "Error fetching current price: connection timed out") ∧
    get_current_price (.requestExc "connection timed out")
      = (none, some "Error fetching current price: connection timed out") :=
  ⟨rfl, rfl⟩

/-- C6 (amended): the dedicated timeout classification exists only in the
series fetch: for every timed-out `fetch_stock_data` call the result is
the fixed Timeout message, which differs from the network-error,
unexpected-error, HTTP-status and missing-data classifications for all
causes and all non-200 status codes (a provider-reported error carries
an arbitrary provider message and is excluded from the distinctness
claim); `get_current_price`, by contrast, funnels a timeout through its
generic handler, producing the same result as a generic network failure
with the same exception text. -/
theorem claim_C6 (c c' : String) (n : Nat) (hn : ¬(n = 200))
    (body body200 : TimeSeriesBody) (hnv : body200.values = none)
    (hns : ¬(body200.status = some "error")) :
    fetch_stock_data (.timeoutExc c)
      = (none, some "Request timed out. Please try again.") ∧
    fetch_stock_data (.requestExc c') ≠ fetch_stock_data (.timeoutExc c) ∧
    fetch_stock_data (.otherExc c') ≠ fetch_stock_data (.timeoutExc c) ∧
    fetch_stock_data (.resp n body) ≠ fetch_stock_data (.timeoutExc c) ∧
    fetch_stock_data (.resp 200 body200) ≠ fetch_stock_data (.timeoutExc c) ∧
    get_current_price (.timeoutExc c') = get_current_price (.requestExc c') := by
  refine ⟨rfl, ?_, ?_, ?_, ?_, rfl⟩
  · intro he
    have h2 : some ("Network error: " ++ c')
        = some "Request timed out. Please try again." := congrArg Prod.snd he
    rw [Option.some.injEq] at h2
    have hh : ("Network error: " ++ c').data.head? = some 'N' :=
      append_head? "Network error: " c' 'N' _ rfl
    rw [h2] at hh
    exact absurd hh (by decide)
  · intro he
    have h2 : some ("Unexpected error: " ++ c')
        = some "Request timed out. Please try again." := congrArg Prod.snd he
    rw [Option.some.injEq] at h2
    have hh : ("Unexpected error: " ++ c').data.head? = some 'U' :=
      append_head? "Unexpected error: " c' 'U' _ rfl
    rw [h2] at hh
    exact absurd hh (by decide)
  · have hr : fetch_stock_data (.resp n body)
        = (none, some ("API request failed with status code: " ++ toString n)) := by
      simp only [fetch_stock_data]
      rw [if_neg hn]
    rw [hr]
    intro he
    have h2 : some ("API request failed with status code: " ++ toString n)
        = some "Request timed out. Please try again." := congrArg Prod.snd he
    rw [Option.some.injEq] at h2
    have hh : ("API request failed with status code: " ++ toString n).data.head?
        = some 'A' := append_head? "API request failed with status code: " (toString n) 'A' _ rfl
    rw [h2] at hh
    exact absurd hh (by decide)
  · have hr : fetch_stock_data (.resp 200 body200)
        = (none, some "No data available for this symbol") := by
      simp only [fetch_stock_data]
      rw [if_true, if_neg hns, hnv]
    rw [hr]
    exact snd_pair_ne (by decide)

theorem claim_C6_witness :
    ¬((404 : Nat) = 200) ∧
    (TimeSeriesBody.mk none none none).values = none ∧
    ¬((TimeSeriesBody.mk none none none).status = some "error") ∧
    (fetch_stock_data (.timeoutExc "boom")
        = (none, some "Request timed out. Please try again.") ∧
      fetch_stock_data (.requestExc "boom") ≠ fetch_stock_data (.timeoutExc "boom") ∧
      fetch_stock_data (.otherExc "boom") ≠ fetch_stock_data (.timeoutExc "boom") ∧
      fetch_stock_data (.resp 404 (TimeSeriesBody.mk none none none))
        ≠ fetch_stock_data (.timeoutExc "boom") ∧
      fetch_stock_data (.resp 200 (TimeSeriesBody.mk none none none))
        ≠ fetch_stock_data (.timeoutExc "boom") ∧
      get_current_price (.timeoutExc "boom") = get_current_price (.requestExc "boom")) :=
  ⟨by decide, rfl, by decide,
   claim_C6 "boom" "boom" 404 (by decide) (TimeSeriesBody.mk none none none)
     (TimeSeriesBody.mk none none none) rfl (by decide)⟩

/-- C7: for every raw series containing a record with an unparseable
field, `process_stock_data` fails with a MalformedRecord error that
carries the converted column's name, the row position, and the
offending cell text — components that identify which record and field
caused the failure, with the underlying unparseable text attached. -/
theorem claim_C7 (data : TimeSeriesBody) (vs : List RawRecord)
    (hv : data.values = some vs) (hbad : ∃ r ∈ vs, recordParse? r = none) :
    ∃ f i bad r, process_stock_data data = .error (.malformed f i bad)
      ∧ vs[i]? = some r ∧ rawFieldGet r f = some bad
      ∧ fieldParses f bad = false :=
  process_malformed_of_bad data vs hv hbad

theorem claim_C7_witness :
    (TimeSeriesBody.mk none none
        (some [RawRecord.mk "2024-01-09" "1" "3" "1" "abc" "10"])).values
      = some [RawRecord.mk "2024-01-09" "1" "3" "1" "abc" "10"] ∧
    (∃ r ∈ [RawRecord.mk "2024-01-09" "1" "3" "1" "abc" "10"],
      recordParse? r = none) ∧
    (∃ f i bad r,
      process_stock_data (TimeSeriesBody.mk none none
          (some [RawRecord.mk "2024-01-09" "1" "3" "1" "abc" "10"]))
        = .error (.malformed f i bad)
      ∧ [RawRecord.mk "2024-01-09" "1" "3" "1" "abc" "10"][i]? = some r
      ∧ rawFieldGet r f = some bad ∧ fieldParses f bad = false) :=
  ⟨rfl, by decide,
   claim_C7 (TimeSeriesBody.mk none none
       (some [RawRecord.mk "2024-01-09" "1" "3" "1" "abc" "10"]))
     [RawRecord.mk "2024-01-09" "1" "3" "1" "abc" "10"] rfl (by decide)⟩

/-- C3: for every raw series of 7 records whose fields all parse
(`allParse? recordParse?` converts each date and each numeric string to
its exact value) and whose dates are pairwise distinct, normalization
succeeds and returns exactly the 7 converted records — a permutation of
the elementwise conversion, so nothing is added, dropped or altered —
sorted strictly ascending by date. -/
theorem claim_C3 (vs : List RawRecord) (rs : List StockRecord)
    (h7 : vs.length = 7) (hp : allParse? recordParse? vs = some rs)
    (hd : List.Pairwise (fun a b => a.datetime ≠ b.datetime) rs) :
    process_stock_data ⟨none, none, some vs⟩ = .ok (sortByDatetime rs)
    ∧ (sortByDatetime rs).length = 7
    ∧ List.Perm (sortByDatetime rs) rs
    ∧ List.Pairwise (fun a b => a.datetime < b.datetime) (sortByDatetime rs) := by
  have hne : vs ≠ [] := by
    intro h0
    rw [h0] at h7
    cases h7
  have hlenrs : rs.length = 7 := by
    rw [allParse?_length recordParse? vs rs hp, h7]
  refine ⟨process_ok_of_allParse ⟨none, none, some vs⟩ vs rs rfl hne hp, ?_,
    sortByDatetime_perm rs, ?_⟩
  · rw [sortByDatetime_length, hlenrs]
  · have hsort : List.Pairwise dateLe (sortByDatetime rs) := sortByDatetime_sorted rs
    have hd2 : List.Pairwise (fun a b => a.datetime ≠ b.datetime) (sortByDatetime rs) :=
      (List.Perm.pairwise_iff (fun h => Ne.symm h) (sortByDatetime_perm rs)).mpr hd
    exact (hsort.and hd2).imp (fun hab => Nat.lt_of_le_of_ne hab.1 hab.2)

theorem claim_C3_witness :
    ([RawRecord.mk "2024-01-10" "10" "13" "9" "12" "100",
      RawRecord.mk "2024-01-08" "8" "11" "7" "10" "80",
      RawRecord.mk "2024-01-12" "12" "15" "11" "14" "120",
      RawRecord.mk "2024-01-09" "9" "12" "8" "11" "90",
      RawRecord.mk "2024-01-14" "14" "17" "13" "16" "140",
      RawRecord.mk "2024-01-11" "11" "14" "10" "13" "110",
      RawRecord.mk "2024-01-13" "13" "16" "12" "15" "130"].length = 7) ∧
    allParse? recordParse?
        [RawRecord.mk "2024-01-10" "10" "13" "9" "12" "100",
         RawRecord.mk "2024-01-08" "8" "11" "7" "10" "80",
         RawRecord.mk "2024-01-12" "12" "15" "11" "14" "120",
         RawRecord.mk "2024-01-09" "9" "12" "8" "11" "90",
         RawRecord.mk "2024-01-14" "14" "17" "13" "16" "140",
         RawRecord.mk "2024-01-11" "11" "14" "10" "13" "110",
         RawRecord.mk "2024-01-13" "13" "16" "12" "15" "130"]
      = some [StockRecord.mk 20240110 10 13 9 12 100,
              StockRecord.mk 20240108 8 11 7 10 80,
              StockRecord.mk 20240112 12 15 11 14 120,
              StockRecord.mk 20240109 9 12 8 11 90,
              StockRecord.mk 20240114 14 17 13 16 140,
              StockRecord.mk 20240111 11 14 10 13 110,
              StockRecord.mk 20240113 13 16 12 15 130] ∧
    List.Pairwise (fun a b => a.datetime ≠ b.datetime)
      [StockRecord.mk 20240110 10 13 9 12 100,
       StockRecord.mk 20240108 8 11 7 10 80,
       StockRecord.mk 20240112 12 15 11 14 120,
       StockRecord.mk 20240109 9 12 8 11 90,
       StockRecord.mk 20240114 14 17 13 16 140,
       StockRecord.mk 20240111 11 14 10 13 110,
       StockRecord.mk 20240113 13 16 12 15 130] ∧
    (process_stock_data ⟨none, none,
        some [RawRecord.mk "2024-01-10" "10" "13" "9" "12" "100",
              RawRecord.mk "2024-01-08" "8" "11" "7" "10" "80",
              RawRecord.mk "2024-01-12" "12" "15" "11" "14" "120",
              RawRecord.mk "2024-01-09" "9" "12" "8" "11" "90",
              RawRecord.mk "2024-01-14" "14" "17" "13" "16" "140",
              RawRecord.mk "2024-01-11" "11" "14" "10" "13" "110",
              RawRecord.mk "2024-01-13" "13" "16" "12" "15" "130"]⟩
      = .ok (sortByDatetime
          [StockRecord.mk 20240110 10 13 9 12 100,
           StockRecord.mk 20240108 8 11 7 10 80,
           StockRecord.mk 20240112 12 15 11 14 120,
           StockRecord.mk 20240109 9 12 8 11 90,
           StockRecord.mk 20240114 14 17 13 16 140,
           StockRecord.mk 20240111 11 14 10 13 110,
           StockRecord.mk 20240113 13 16 12 15 130])
    ∧ (sortByDatetime
          [StockRecord.mk 20240110 10 13 9 12 100,
           StockRecord.mk 20240108 8 11 7 10 80,
           StockRecord.mk 20240112 12 15 11 14 120,
           StockRecord.mk 20240109 9 12 8 11 90,
           StockRecord.mk 20240114 14 17 13 16 140,
           StockRecord.mk 20240111 11 14 10 13 110,
           StockRecord.mk 20240113 13 16 12 15 130]).length = 7
    ∧ List.Perm (sortByDatetime
          [StockRecord.mk 20240110 10 13 9 12 100,
           StockRecord.mk 20240108 8 11 7 10 80,
           StockRecord.mk 20240112 12 15 11 14 120,
           StockRecord.mk 20240109 9 12 8 11 90,
           StockRecord.mk 20240114 14 17 13 16 140,
           StockRecord.mk 20240111 11 14 10 13 110,
           StockRecord.mk 20240113 13 16 12 15 130])
        [StockRecord.mk 20240110 10 13 9 12 100,
         StockRecord.mk 20240108 8 11 7 10 80,
         StockRecord.mk 20240112 12 15 11 14 120,
         StockRecord.mk 20240109 9 12 8 11 90,
         StockRecord.mk 20240114 14 17 13 16 140,
         StockRecord.mk 20240111 11 14 10 13 110,
         StockRecord.mk 20240113 13 16 12 15 130]
    ∧ List.Pairwise (fun a b => a.datetime < b.datetime)
        (sortByDatetime
          [StockRecord.mk 20240110 10 13 9 12 100,
           StockRecord.mk 20240108 8 11 7 10 80,
           StockRecord.mk 20240112 12 15 11 14 120,
           StockRecord.mk 20240109 9 12 8 11 90,
           StockRecord.mk 20240114 14 17 13 16 140,
           StockRecord.mk 20240111 11 14 10 13 110,
           StockRecord.mk 20240113 13 16 12 15 130])) :=
  ⟨rfl, by decide, by decide,
   claim_C3
     [RawRecord.mk "2024-01-10" "10" "13" "9" "12" "100",
      RawRecord.mk "2024-01-08" "8" "11" "7" "10" "80",
      RawRecord.mk "2024-01-12" "12" "15" "11" "14" "120",
      RawRecord.mk "2024-01-09" "9" "12" "8" "11" "90",
      RawRecord.mk "2024-01-14" "14" "17" "13" "16" "140",
      RawRecord.mk "2024-01-11" "11" "14" "10" "13" "110",
      RawRecord.mk "2024-01-13" "13" "16" "12" "15" "130"]
     [StockRecord.mk 20240110 10 13 9 12 100,
      StockRecord.mk 20240108 8 11 7 10 80,
      StockRecord.mk 20240112 12 15 11 14 120,
      StockRecord.mk 20240109 9 12 8 11 90,
      StockRecord.mk 20240114 14 17 13 16 140,
      StockRecord.mk 20240111 11 14 10 13 110,
      StockRecord.mk 20240113 13 16 12 15 130]
     rfl (by decide) (by decide)⟩

/-- C1: on a validated symbol, with the price endpoint answering HTTP
200 with `price: "150.25"` and the series endpoint answering a 7-record
fully-parseable series with distinct dates, the rendered quote equals
150.25 (no warning), the displayed 7-day high is the maximum of the 7
high values, the displayed 7-day low is the minimum of the 7 low
values, and the displayed latest close is the close of the record with
the greatest date. -/
theorem claim_C1 (raw : String) (vs : List RawRecord) (rs : List StockRecord)
    (hv : validate raw = (true, "")) (h7 : vs.length = 7)
    (hp : allParse? recordParse? vs = some rs)
    (hd : List.Pairwise (fun a b => a.datetime ≠ b.datetime) rs) :
    (run_app raw (.resp 200 ⟨none, none, some "150.25"⟩)
        (.resp 200 ⟨none, none, some vs⟩)).priceMetric = some (150.25 : ℚ)
    ∧ (run_app raw (.resp 200 ⟨none, none, some "150.25"⟩)
        (.resp 200 ⟨none, none, some vs⟩)).priceWarning = false
    ∧ ∃ lc hi lo,
        (run_app raw (.resp 200 ⟨none, none, some "150.25"⟩)
            (.resp 200 ⟨none, none, some vs⟩)).keyMetrics = some (lc, hi, lo)
        ∧ hi ∈ rs.map (·.high) ∧ (∀ x ∈ rs.map (·.high), x ≤ hi)
        ∧ lo ∈ rs.map (·.low) ∧ (∀ x ∈ rs.map (·.low), lo ≤ x)
        ∧ ∀ rstar ∈ rs, (∀ r ∈ rs, r.datetime ≤ rstar.datetime)
            → lc = rstar.close := by
  have hne : vs ≠ [] := by
    intro h0
    rw [h0] at h7
    cases h7
  have hs : fetch_stock_data (.resp 200 ⟨none, none, some vs⟩)
      = (some ⟨none, none, some vs⟩, none) := rfl
  have hq : get_current_price (.resp 200 ⟨none, none, some "150.25"⟩)
      = (some (mkRat 15025 100), none) := by decide
  have hqq : mkRat 15025 100 = (150.25 : ℚ) := by norm_num [Rat.mkRat_eq_div]
  have hproc := process_ok_of_allParse ⟨none, none, some vs⟩ vs rs rfl hne hp
  have htr : pyTruthyFloat (some (mkRat 15025 100)) = true := by decide
  have hqq0 : mkRat 15025 100 = (150.25 : ℚ) := by norm_num [Rat.mkRat_eq_div]
  have htr2 : pyTruthyFloat (some (150.25 : ℚ)) = true := by
    rw [← hqq0]
    exact htr
  rw [run_app_success raw (.resp 200 ⟨none, none, some "150.25"⟩)
    (.resp 200 ⟨none, none, some vs⟩) ⟨none, none, some vs⟩
    (sortByDatetime rs) hv hs hproc]
  have hlenrs : rs.length = 7 := by
    rw [allParse?_length recordParse? vs rs hp, h7]
  have hdf_len : (sortByDatetime rs).length = 7 := by
    rw [sortByDatetime_length, hlenrs]
  have hdfne : sortByDatetime rs ≠ [] := by
    intro h0
    rw [h0] at hdf_len
    cases hdf_len
  have hpermh : List.Perm ((sortByDatetime rs).map (·.high)) (rs.map (·.high)) :=
    (sortByDatetime_perm rs).map (·.high)
  have hperml : List.Perm ((sortByDatetime rs).map (·.low)) (rs.map (·.low)) :=
    (sortByDatetime_perm rs).map (·.low)
  have hmapne : (sortByDatetime rs).map (·.high) ≠ [] := by
    intro h0
    exact hdfne (List.map_eq_nil_iff.mp h0)
  have hmapnel : (sortByDatetime rs).map (·.low) ≠ [] := by
    intro h0
    exact hdfne (List.map_eq_nil_iff.mp h0)
  refine ⟨by simp [hq, htr, htr2, pyTruthyStr, hqq], by simp [hq, htr, htr2, pyTruthyStr, hqq], ?_⟩
  refine ⟨latest_close (sortByDatetime rs), week_high (sortByDatetime rs),
    week_low (sortByDatetime rs), rfl, ?_, ?_, ?_, ?_, ?_⟩
  · exact hpermh.mem_iff.mp (listMax_mem _ hmapne)
  · intro x hx
    exact le_listMax _ x (hpermh.mem_iff.mpr hx)
  · exact hperml.mem_iff.mp (listMin_mem _ hmapnel)
  · intro x hx
    exact listMin_le _ x (hperml.mem_iff.mpr hx)
  · intro rstar hrstar hmax
    cases hgl : (sortByDatetime rs).getLast? with
    | none => exact absurd (List.getLast?_eq_none_iff.mp hgl) hdfne
    | some z =>
      have hlc : latest_close (sortByDatetime rs) = z.close := by
        unfold latest_close
        rw [hgl]
      have hzdf : z ∈ sortByDatetime rs := List.mem_of_getLast?_eq_some hgl
      have hzrs : z ∈ rs := (sortByDatetime_perm rs).mem_iff.mp hzdf
      have hrstardf : rstar ∈ sortByDatetime rs :=
        (sortByDatetime_perm rs).mem_iff.mpr hrstar
      have h1 : rstar.datetime ≤ z.datetime :=
        sorted_le_getLast? (sortByDatetime rs) (sortByDatetime_sorted rs)
          z hgl rstar hrstardf
      have h2 : z.datetime ≤ rstar.datetime := hmax z hzrs
      by_cases hzr : z = rstar
      · rw [hlc, hzr]
      · exact absurd (Nat.le_antisymm h2 h1)
          (List.Pairwise.forall (fun _ _ h => Ne.symm h) hd hzrs hrstar hzr)

theorem claim_C1_witness :
    validate "AAPL" = (true, "") ∧
    ([RawRecord.mk "2024-02-03" "20" "23" "19" "22" "200",
      RawRecord.mk "2024-02-01" "18" "21" "17" "20" "180",
      RawRecord.mk "2024-02-05" "22" "25" "21" "24" "220",
      RawRecord.mk "2024-02-02" "19" "22" "18" "21" "190",
      RawRecord.mk "2024-02-07" "24" "27" "23" "26" "240",
      RawRecord.mk "2024-02-04" "21" "24" "20" "23" "210",
      RawRecord.mk "2024-02-06" "23" "26" "22" "25" "230"].length = 7) ∧
    allParse? recordParse?
        [RawRecord.mk "2024-02-03" "20" "23" "19" "22" "200",
         RawRecord.mk "2024-02-01" "18" "21" "17" "20" "180",
         RawRecord.mk "2024-02-05" "22" "25" "21" "24" "220",
         RawRecord.mk "2024-02-02" "19" "22" "18" "21" "190",
         RawRecord.mk "2024-02-07" "24" "27" "23" "26" "240",
         RawRecord.mk "2024-02-04" "21" "24" "20" "23" "210",
         RawRecord.mk "2024-02-06" "23" "26" "22" "25" "230"]
      = some [StockRecord.mk 20240203 20 23 19 22 200,
              StockRecord.mk 20240201 18 21 17 20 180,
              StockRecord.mk 20240205 22 25 21 24 220,
              StockRecord.mk 20240202 19 22 18 21 190,
              StockRecord.mk 20240207 24 27 23 26 240,
              StockRecord.mk 20240204 21 24 20 23 210,
              StockRecord.mk 20240206 23 26 22 25 230] ∧
    List.Pairwise (fun a b => a.datetime ≠ b.datetime)
      [StockRecord.mk 20240203 20 23 19 22 200,
       StockRecord.mk 20240201 18 21 17 20 180,
       StockRecord.mk 20240205 22 25 21 24 220,
       StockRecord.mk 20240202 19 22 18 21 190,
       StockRecord.mk 20240207 24 27 23 26 240,
       StockRecord.mk 20240204 21 24 20 23 210,
       StockRecord.mk 20240206 23 26 22 25 230] ∧
    ((run_app "AAPL" (.resp 200 ⟨none, none, some "150.25"⟩)
        (.resp 200 ⟨none, none,
          some [RawRecord.mk "2024-02-03" "20" "23" "19" "22" "200",
                RawRecord.mk "2024-02-01" "18" "21" "17" "20" "180",
                RawRecord.mk "2024-02-05" "22" "25" "21" "24" "220",
                RawRecord.mk "2024-02-02" "19" "22" "18" "21" "190",
                RawRecord.mk "2024-02-07" "24" "27" "23" "26" "240",
                RawRecord.mk "2024-02-04" "21" "24" "20" "23" "210",
                RawRecord.mk "2024-02-06" "23" "26" "22" "25" "230"]⟩)).priceMetric
      = some (150.25 : ℚ)
    ∧ (run_app "AAPL" (.resp 200 ⟨none, none, some "150.25"⟩)
        (.resp 200 ⟨none, none,
          some [RawRecord.mk "2024-02-03" "20" "23" "19" "22" "200",
                RawRecord.mk "2024-02-01" "18" "21" "17" "20" "180",
                RawRecord.mk "2024-02-05" "22" "25" "21" "24" "220",
                RawRecord.mk "2024-02-02" "19" "22" "18" "21" "190",
                RawRecord.mk "2024-02-07" "24" "27" "23" "26" "240",
                RawRecord.mk "2024-02-04" "21" "24" "20" "23" "210",
                RawRecord.mk "2024-02-06" "23" "26" "22" "25" "230"]⟩)).priceWarning
      = false
    ∧ ∃ lc hi lo,
        (run_app "AAPL" (.resp 200 ⟨none, none, some "150.25"⟩)
          (.resp 200 ⟨none, none,
            some [RawRecord.mk "2024-02-03" "20" "23" "19" "22" "200",
                  RawRecord.mk "2024-02-01" "18" "21" "17" "20" "180",
                  RawRecord.mk "2024-02-05" "22" "25" "21" "24" "220",
                  RawRecord.mk "2024-02-02" "19" "22" "18" "21" "190",
                  RawRecord.mk "2024-02-07" "24" "27" "23" "26" "240",
                  RawRecord.mk "2024-02-04" "21" "24" "20" "23" "210",
                  RawRecord.mk "2024-02-06" "23" "26" "22" "25" "230"]⟩)).keyMetrics
          = some (lc, hi, lo)
        ∧ hi ∈ [StockRecord.mk 20240203 20 23 19 22 200,
                StockRecord.mk 20240201 18 21 17 20 180,
                StockRecord.mk 20240205 22 25 21 24 220,
                StockRecord.mk 20240202 19 22 18 21 190,
                StockRecord.mk 20240207 24 27 23 26 240,
                StockRecord.mk 20240204 21 24 20 23 210,
                StockRecord.mk 20240206 23 26 22 25 230].map (·.high)
        ∧ (∀ x ∈ [StockRecord.mk 20240203 20 23 19 22 200,
                  StockRecord.mk 20240201 18 21 17 20 180,
                  StockRecord.mk 20240205 22 25 21 24 220,
                  StockRecord.mk 20240202 19 22 18 21 190,
                  StockRecord.mk 20240207 24 27 23 26 240,
                  StockRecord.mk 20240204 21 24 20 23 210,
                  StockRecord.mk 20240206 23 26 22 25 230].map (·.high), x ≤ hi)
        ∧ lo ∈ [StockRecord.mk 20240203 20 23 19 22 200,
                StockRecord.mk 20240201 18 21 17 20 180,
                StockRecord.mk 20240205 22 25 21 24 220,
                StockRecord.mk 20240202 19 22 18 21 190,
                StockRecord.mk 20240207 24 27 23 26 240,
                StockRecord.mk 20240204 21 24 20 23 210,
                StockRecord.mk 20240206 23 26 22 25 230].map (·.low)
        ∧ (∀ x ∈ [StockRecord.mk 20240203 20 23 19 22 200,
                  StockRecord.mk 20240201 18 21 17 20 180,
                  StockRecord.mk 20240205 22 25 21 24 220,
                  StockRecord.mk 20240202 19 22 18 21 190,
                  StockRecord.mk 20240207 24 27 23 26 240,
                  StockRecord.mk 20240204 21 24 20 23 210,
                  StockRecord.mk 20240206 23 26 22 25 230].map (·.low), lo ≤ x)
        ∧ ∀ rstar ∈ [StockRecord.mk 20240203 20 23 19 22 200,
                     StockRecord.mk 20240201 18 21 17 20 180,
                     StockRecord.mk 20240205 22 25 21 24 220,
                     StockRecord.mk 20240202 19 22 18 21 190,
                     StockRecord.mk 20240207 24 27 23 26 240,
                     StockRecord.mk 20240204 21 24 20 23 210,
                     StockRecord.mk 20240206 23 26 22 25 230],
            (∀ r ∈ [StockRecord.mk 20240203 20 23 19 22 200,
                    StockRecord.mk 20240201 18 21 17 20 180,
                    StockRecord.mk 20240205 22 25 21 24 220,
                    StockRecord.mk 20240202 19 22 18 21 190,
                    StockRecord.mk 20240207 24 27 23 26 240,
                    StockRecord.mk 20240204 21 24 20 23 210,
                    StockRecord.mk 20240206 23 26 22 25 230],
              r.datetime ≤ rstar.datetime) → lc = rstar.close) :=
  ⟨by decide, rfl, by decide, by decide,
   claim_C1 "AAPL"
     [RawRecord.mk "2024-02-03" "20" "23" "19" "22" "200",
      RawRecord.mk "2024-02-01" "18" "21" "17" "20" "180",
      RawRecord.mk "2024-02-05" "22" "25" "21" "24" "220",
      RawRecord.mk "2024-02-02" "19" "22" "18" "21" "190",
      RawRecord.mk "2024-02-07" "24" "27" "23" "26" "240",
      RawRecord.mk "2024-02-04" "21" "24" "20" "23" "210",
      RawRecord.mk "2024-02-06" "23" "26" "22" "25" "230"]
     [StockRecord.mk 20240203 20 23 19 22 200,
      StockRecord.mk 20240201 18 21 17 20 180,
      StockRecord.mk 20240205 22 25 21 24 220,
      StockRecord.mk 20240202 19 22 18 21 190,
      StockRecord.mk 20240207 24 27 23 26 240,
      StockRecord.mk 20240204 21 24 20 23 210,
      StockRecord.mk 20240206 23 26 22 25 230]
     (by decide) rfl (by decide) (by decide)⟩
